import Mathlib

/-!
Verification of the climate-scenario provider matching and ranking engine.

The definitions below are a shallow embedding of the Python sources
`backend/matching.py` (query parsing, provider scoring) and
`backend/recommendation_service.py` (coverage metrics, candidate ranking).
Python strings are modelled as lists of characters (`Str`), Python floats as
exact rationals (`ℚ`), Python `None`-able values as `Option`, and the one
fallible operation (`int(token)` inside the parser) as an `Except` value.
-/

namespace ClimateHIS

/-- Python strings are modelled as lists of characters. -/
abbrev Str := List Char

/-- Embeds Python `s.lower()` (ASCII case folding, which covers every string
the engine manipulates). -/
def lower (s : Str) : Str := s.map Char.toLower

/-- Embeds Python `s.upper()`. -/
def upper (s : Str) : Str := s.map Char.toUpper

/-- Embeds the Python substring test `needle in hay` on strings: `needle`
occurs contiguously inside `hay`. -/
def containsSub (needle : Str) : Str → Bool
  | [] => needle.isEmpty
  | c :: rest => needle.isPrefixOf (c :: rest) || containsSub needle rest

/-- Embeds Python `s.split("|")[0]`: the characters before the first pipe
(the whole string when no pipe occurs, as in Python). -/
def pipeHead (s : Str) : Str := s.takeWhile (fun c => c ≠ '|')

/-- Weight constant `W_VAR = 0.40` from `matching.py`. -/
def W_VAR : ℚ := 0.40

/-- Weight constant `W_SCEN = 0.25` from `matching.py`. -/
def W_SCEN : ℚ := 0.25

/-- Weight constant `W_GRAN = 0.10` from `matching.py`. -/
def W_GRAN : ℚ := 0.10

/-- Weight constant `W_AVAIL = 0.10` from `matching.py`. -/
def W_AVAIL : ℚ := 0.10

/-- Embeds `semantic_match(q, p)` from `matching.py`: lower-case both sides,
return 1.0 on equality, 0.8 when either contains the other, else 0.0. -/
def semantic_match (q p : Str) : ℚ :=
  let q := lower q
  let p := lower p
  if q = p then 1
  else if containsSub q p || containsSub p q then 0.8
  else 0

/-- Embeds `var_match(q_var, prov_var)` from `matching.py`. -/
def var_match (q_var prov_var : Str) : ℚ :=
  let qv := lower q_var
  let pv := lower prov_var
  if qv = pv then 1
  else if containsSub qv pv then 0.8
  else if containsSub (pipeHead qv) pv then 0.5
  else if containsSub pv qv then 0.5
  else 0

/-- The structured query produced by `parse_query` (a Python dict with the
six fixed keys). -/
structure Query where
  «variables» : List Str
  regions : List Str
  scenarios : List Str
  granularity : Option Str
  start_year : Option Int
  end_year : Option Int
deriving DecidableEq

/-- A provider catalog entry, with the fields `score_provider` reads
(`years` is the `{"min": _, "max": _}` dict). -/
structure Provider where
  «variables» : List Str
  scenarios : List Str
  regions : List Str
  granularity : Str
  years_min : Int
  years_max : Int
deriving DecidableEq

/-- One `{"query": _, "provider": _, "similarity": _}` record appended to the
`matched` lists in `score_provider`. -/
structure MatchPair where
  query : Str
  provider : Str
  similarity : ℚ
deriving DecidableEq

/-- The explanation dict returned by `score_provider`.  The Python code keeps
a dict keyed by "variables"/"regions"/"scenarios" and drops empty entries; an
absent key is represented here by the empty list, which loses no
information. -/
structure Explanation where
  matched_variables : List MatchPair
  matched_regions : List MatchPair
  matched_scenarios : List MatchPair
  missing : List Str
deriving DecidableEq

/-- The region pairs collected by the strict-region-filter loop of
`score_provider` (outer loop over query regions, inner over provider
regions, keeping pairs with positive similarity). -/
def matchedRegions (p : Provider) (q : Query) : List MatchPair :=
  q.regions.flatMap (fun qr =>
    p.regions.filterMap (fun pr =>
      let sim := semantic_match qr pr
      if 0 < sim then some ⟨qr, pr, sim⟩ else none))

/-- The inner loop of the variable block of `score_provider`: the running
best similarity and best provider variable for one query variable (`best`
starts at 0 and `best_p` at `None`; only strictly larger similarities
replace them). -/
def bestVar (p : Provider) (qv : Str) : ℚ × Option Str :=
  p.variables.foldl
    (fun acc pv =>
      let sim := var_match qv pv
      if acc.1 < sim then (sim, some pv) else acc)
    (0, none)

/-- The per-token maximum of `var_match` over the provider variables. -/
def bestVarSim (p : Provider) (qv : Str) : ℚ := (bestVar p qv).1

/-- The `var_scores` list of `score_provider`: one entry per query-variable
token whose best similarity is positive. -/
def varScores (p : Provider) : List Str → List ℚ
  | [] => []
  | qv :: rest =>
    let best := bestVarSim p qv
    if 0 < best then best :: varScores p rest else varScores p rest

/-- The `matched["variables"]` list of `score_provider` (the best provider
variable is recorded for each token whose best similarity is positive; when
the similarity is positive the recorded option is necessarily `some`, and
`getD` only discharges the option type). -/
def varMatches (p : Provider) : List Str → List MatchPair
  | [] => []
  | qv :: rest =>
    let b := bestVar p qv
    if 0 < b.1 then ⟨qv, b.2.getD [], b.1⟩ :: varMatches p rest
    else varMatches p rest

/-- The amount the variable block adds to the score: inside `if
q["variables"]:`, when `var_scores` is non-empty the code adds
`sum(var_scores) / len(var_scores) * W_VAR` (when `q.variables` is empty the
block is skipped, and `varScores` is empty anyway). -/
def varContribution (p : Provider) (q : Query) : ℚ :=
  let s := varScores p q.variables
  if s = [] then 0 else (s.sum / s.length) * W_VAR

/-- The `scen_scores` list of `score_provider`: every (query scenario,
provider scenario) pair with positive `semantic_match`, in loop order. -/
def scenScores (p : Provider) : List Str → List ℚ
  | [] => []
  | qs :: rest =>
    p.scenarios.filterMap (fun ps =>
      let sim := semantic_match qs ps
      if 0 < sim then some sim else none) ++ scenScores p rest

/-- The `matched["scenarios"]` list of `score_provider`. -/
def scenMatches (p : Provider) : List Str → List MatchPair
  | [] => []
  | qs :: rest =>
    p.scenarios.filterMap (fun ps =>
      let sim := semantic_match qs ps
      if 0 < sim then some ⟨qs, ps, sim⟩ else none) ++ scenMatches p rest

/-- The amount the scenario block adds: `sum(scen_scores) /
len(q["scenarios"]) * W_SCEN` when `scen_scores` is non-empty (note the
denominator is the number of query scenarios, not of collected pairs). -/
def scenContribution (p : Provider) (q : Query) : ℚ :=
  let s := scenScores p q.scenarios
  if s = [] then 0 else (s.sum / q.scenarios.length) * W_SCEN

/-- The granularity bonus: Python tests `q["granularity"] and
q["granularity"] == provider["granularity"]`, where an unset (`None`) or
empty-string granularity is falsy. -/
def granContribution (p : Provider) (q : Query) : ℚ :=
  match q.granularity with
  | some g => if g ≠ [] ∧ g = p.granularity then W_GRAN else 0
  | none => 0

/-- The temporal-availability bonus: Python tests `q["start_year"] and
q["end_year"]` (an unset year or the integer 0 is falsy) and then full
containment of the requested range in the provider range. -/
def availContribution (p : Provider) (q : Query) : ℚ :=
  match q.start_year, q.end_year with
  | some sy, some ey =>
    if sy ≠ 0 ∧ ey ≠ 0 ∧ p.years_min ≤ sy ∧ ey ≤ p.years_max then W_AVAIL
    else 0
  | _, _ => 0

/-- Embeds `score_provider(provider, q)` from `matching.py`: the strict
region filter first (returning `(0.0, None)` when the query names regions
and none overlaps), then the weighted variable/scenario/granularity/year
contributions and the explanation dict. -/
def score_provider (p : Provider) (q : Query) : ℚ × Option Explanation :=
  let mRegions := matchedRegions p q
  if q.regions ≠ [] ∧ mRegions = [] then (0, none)
  else
    let mVars := varMatches p q.variables
    let mScens := scenMatches p q.scenarios
    let score :=
      varContribution p q + scenContribution p q +
      granContribution p q + availContribution p q
    let missing :=
      (if mVars = [] ∧ q.variables ≠ [] then ["variables".toList] else []) ++
      (if mRegions = [] ∧ q.regions ≠ [] then ["regions".toList] else []) ++
      (if mScens = [] ∧ q.scenarios ≠ [] then ["scenarios".toList] else [])
    (score, some ⟨mVars, mRegions, mScens, missing⟩)

/-!  Query parser (`parse_query` in `matching.py`). -/

/-- The `known_regions` gazetteer of `parse_query`. -/
def knownRegions : List Str :=
  ["india".toList, "china".toList, "usa".toList, "world".toList,
   "europe".toList, "germany".toList]

/-- The granularity keyword list of `parse_query`. -/
def granKeywords : List Str :=
  ["annual".toList, "yearly".toList, "5-year".toList, "decadal".toList]

/-- The bare-variable allow-list of `parse_query`. -/
def bareVariables : List Str :=
  ["gdp".toList, "population".toList, "co2".toList, "emissions".toList]

/-- Embeds `scen_re.match(t)` for `scen_re = re.compile(r"ssp\d.*")`:
`re.match` anchors at the start only, so the token must begin with
"ssp" followed by a digit (the trailing `.*` always matches). -/
def isSspToken : Str → Bool
  | 's' :: 's' :: 'p' :: d :: _ => d.isDigit
  | _ => false

/-- Embeds `var_pipe_re.match(t)` for `var_pipe_re = re.compile(r".*\|.*")`:
the token contains a pipe character (tokens carry no newline, since they come
from a whitespace split). -/
def hasPipe (t : Str) : Bool := t.contains '|'

/-- Embeds `year_re.match(t)` for `year_re = re.compile(r"\d{4}")`:
`re.match` only anchors at the start, so any token BEGINNING with four
digits matches, whatever follows. -/
def isYearPrefix : Str → Bool
  | a :: b :: c :: d :: _ => a.isDigit && b.isDigit && c.isDigit && d.isDigit
  | _ => false

/-- Decimal value of a digit string. -/
def digitsToNat (s : Str) : Nat :=
  s.foldl (fun n c => 10 * n + (c.toNat - '0'.toNat)) 0

/-- Embeds Python `int(t)` on a split-off token: it succeeds exactly on
(non-empty) all-digit tokens and raises `ValueError` otherwise.  (The tokens
reaching this call always start with a digit, so signs play no role; digit
grouping underscores are not modelled.) -/
def pyInt (t : Str) : Except Unit Int :=
  if t ≠ [] ∧ t.all Char.isDigit then .ok (digitsToNat t) else .error ()

/-- Embeds Python `t.capitalize()`: first character upper-cased, the rest
lower-cased. -/
def capFirst : Str → Str
  | [] => []
  | c :: rest => c.toUpper :: rest.map Char.toLower

/-- Python truthiness of the `start_year` slot (`not start_year` is true for
`None` and for the integer 0). -/
def yearFalsy : Option Int → Bool
  | none => true
  | some y => y == 0

deriving instance DecidableEq for Except

/-- Bind on an `Except.ok` value reduces to application. -/
theorem exceptOkBind {e a b : Type} (x : a) (f : a → Except e b) :
    (Except.ok x >>= f : Except e b) = f x := rfl

/-- The empty query state `parse_query` starts from. -/
def initQuery : Query :=
  { «variables» := [], regions := [], scenarios := [], granularity := none,
    start_year := none, end_year := none }

/-- One iteration of the token-classification loop of `parse_query`, in the
source's rule order.  The year branch calls `int(t)`, which can raise; that
is the only fallible step. -/
def stepToken (st : Query) (t : Str) : Except Unit Query :=
  if isSspToken t then
    .ok { st with scenarios := st.scenarios ++ [upper t] }
  else if hasPipe t then
    .ok { st with «variables» := st.variables ++ [t] }
  else if knownRegions.contains t then
    .ok { st with regions := st.regions ++ [capFirst t] }
  else if granKeywords.contains t then
    .ok { st with granularity := some t }
  else if isYearPrefix t then
    match pyInt t with
    | .error e => .error e
    | .ok y =>
      .ok (if yearFalsy st.start_year then { st with start_year := some y }
           else { st with end_year := some y })
  else if bareVariables.contains t then
    .ok { st with «variables» := st.variables ++ [t] }
  else
    .ok st

/-- The token loop of `parse_query` over an already-tokenized input. -/
def parseTokens (ts : List Str) : Except Unit Query :=
  ts.foldlM stepToken initQuery

/-- Embeds Python `s.split()` (no argument): split on runs of whitespace,
discarding empty pieces. -/
def words (s : Str) : List Str :=
  let r := s.foldl
    (fun (acc : List Str × Str) c =>
      if c.isWhitespace then
        (if acc.2 = [] then acc else (acc.1 ++ [acc.2.reverse], []))
      else (acc.1, c :: acc.2))
    ([], [])
  if r.2 = [] then r.1 else r.1 ++ [r.2.reverse]

/-- Embeds `parse_query(text)` from `matching.py`:
`tokens = text.lower().split()` followed by the classification loop.  A
Python exception (the `int(t)` `ValueError`) is an `Except.error`. -/
def parse_query (text : Str) : Except Unit Query :=
  parseTokens (words (lower text))

/-!  Coverage metrics and candidate ranking (`recommendation_service.py`).

Python floats are modelled as exact rationals; `round` on a float is
CPython's round-half-to-even, modelled exactly on `ℚ`. -/

/-- A metric dict built by `compute_coverage_metrics` and later mutated by
`score_candidates`.  The two keys `score_candidates` adds (`score`,
`details`) are `Option` fields that are `none` until that mutation. -/
structure Metric where
  provider : Str
  model : Str
  variable_coverage_count : Nat
  region_coverage_count : Nat
  min_year : Int
  max_year : Int
  score : Option Int := none
  details : Option Str := none
deriving DecidableEq

/-- One row of the grouped aggregation query (`so.provider, so.model,
variable_count, region_count, min_year, max_year`). -/
structure Row where
  provider : Str
  model : Str
  variable_count : Nat
  region_count : Nat
  min_year : Int
  max_year : Int
deriving DecidableEq

/-- The dict `compute_coverage_metrics` builds from one fetched row. -/
def rowToMetric (r : Row) : Metric :=
  { provider := r.provider, model := r.model,
    variable_coverage_count := r.variable_count,
    region_coverage_count := r.region_count,
    min_year := r.min_year, max_year := r.max_year }

/-- Embeds `compute_coverage_metrics` from `recommendation_service.py`,
abstracting the database boundary: `none` stands for `get_db_connection()`
returning `None` (connection failure, caught and printed), and the
`Except` value is the outcome of the execute/fetch of the single grouped
aggregation query (`Except.error` stands for a raised exception, which the
`try/except` catches after printing, returning the `results` list — still
empty at that point). -/
def compute_coverage_metrics (conn : Option (Except Unit (List Row))) :
    List Metric :=
  match conn with
  | none => []
  | some (.error _) => []
  | some (.ok rows) => rows.map rowToMetric

/-- CPython `round` on the exact value: round half to even. -/
def pyRound (x : ℚ) : Int :=
  if x - ⌊x⌋ < 1/2 then ⌊x⌋
  else if 1/2 < x - ⌊x⌋ then ⌊x⌋ + 1
  else if ⌊x⌋ % 2 = 0 then ⌊x⌋ else ⌊x⌋ + 1

/-- Python `max` over a list of naturals (as used on the non-empty
comprehension lists in `score_candidates`). -/
def listMax (l : List Nat) : Nat := l.foldl max 0

/-- The `max_vars` value of `score_candidates`:
`max([m['variable_coverage_count'] for m in metrics]) if metrics else 1`. -/
def maxVars (ms : List Metric) : Nat :=
  if ms.isEmpty then 1 else listMax (ms.map (fun m => m.variable_coverage_count))

/-- The `max_regions` value of `score_candidates`. -/
def maxRegions (ms : List Metric) : Nat :=
  if ms.isEmpty then 1 else listMax (ms.map (fun m => m.region_coverage_count))

/-- The `var_score` of one candidate:
`m['variable_coverage_count'] / max_vars if max_vars > 0 else 0`. -/
def varScoreC (maxV : Nat) (m : Metric) : ℚ :=
  if 0 < maxV then (m.variable_coverage_count : ℚ) / (maxV : ℚ) else 0

/-- The `reg_score` of one candidate. -/
def regScoreC (maxR : Nat) (m : Metric) : ℚ :=
  if 0 < maxR then (m.region_coverage_count : ℚ) / (maxR : ℚ) else 0

/-- The `time_score` of one candidate: `min(duration / 30.0, 1.0)` with
`duration = max_year - min_year`. -/
def timeScoreC (m : Metric) : ℚ :=
  min (((m.max_year - m.min_year : Int) : ℚ) / 30) 1

/-- The in-place mutation `score_candidates` applies to one metric dict:
sets `m['score']` to `round(total_score * 100)` (with `bonus = 0.5`) and
`m['details']` to the f-string `"<count> variables, <min>-<max>"`. -/
def updateMetric (maxV maxR : Nat) (m : Metric) : Metric :=
  let total_score : ℚ :=
    0.4 * varScoreC maxV m + 0.3 * regScoreC maxR m +
    0.2 * timeScoreC m + 0.1 * 0.5
  { m with
    score := some (pyRound (total_score * 100)),
    details := some ((toString m.variable_coverage_count).toList ++
      " variables, ".toList ++ (toString m.min_year).toList ++
      "-".toList ++ (toString m.max_year).toList) }

/-- The `scored` list of `score_candidates` before sorting: the input
metrics, mutated in place, in input order.  Because the Python code appends
the very same dict objects, this list is also the state of the caller's
input list after `score_candidates` returns. -/
def scoredList (ms : List Metric) : List Metric :=
  ms.map (updateMetric (maxVars ms) (maxRegions ms))

/-- The value read by the sort key `lambda x: x['score']` (after
`updateMetric` the `score` key is always present). -/
def getScore (m : Metric) : Int := m.score.getD 0

/-- The comparison under which `scored.sort(key=..., reverse=True)` orders
the list: descending scores, with CPython's documented stability (equal
keys keep their original relative order), which `List.mergeSort` shares. -/
def scoreLE (a b : Metric) : Bool := decide (getScore b ≤ getScore a)

/-- Embeds `score_candidates(metrics, ...)` from `recommendation_service.py`
(the `expected_var_count` parameter is dead: the body never reads it). -/
def score_candidates (ms : List Metric) : List Metric :=
  if ms.isEmpty then [] else (scoredList ms).mergeSort scoreLE

/-- The state of the caller's `metrics` list after `score_candidates`
returns: Python mutates the dicts in place (adding `score` and `details`)
but never reorders the input list itself (`sorted`/`sort` act on the new
`scored` list).  On the empty list the function returns before touching
anything, and the map is the identity. -/
def score_candidates_input_after (ms : List Metric) : List Metric :=
  scoredList ms

/-!  Claim C1: the region hard gate. -/

/-- C1: for every Query with non-empty regions and every Provider whose
regions share no exact or substring overlap (`semantic_match` similarity
positive) with any query region, `score_provider` returns `(0.0, None)`,
whatever the other query and provider fields hold. -/
theorem score_provider_region_gate (p : Provider) (q : Query)
    (h1 : q.regions ≠ [])
    (h2 : ∀ qr ∈ q.regions, ∀ pr ∈ p.regions, semantic_match qr pr = 0) :
    score_provider p q = (0, none) := by
  have hm : matchedRegions p q = [] := by
    unfold matchedRegions
    rw [List.flatMap_eq_nil_iff]
    intro qr hqr
    rw [List.filterMap_eq_nil_iff]
    intro pr hpr
    simp [h2 qr hqr pr hpr]
  unfold score_provider
  rw [hm]
  simp [h1]

/-- Query used in the C1 witness: regions `["india"]`, everything else
unset. -/
def qC1 : Query := { initQuery with regions := ["india".toList] }

/-- Provider used in the C1 witness: its only region "zzz" has no overlap
with "india", while all other dimensions would match the query if they were
consulted (they must not be). -/
def pC1 : Provider :=
  { «variables» := ["gdp".toList], scenarios := ["ssp1".toList],
    regions := ["zzz".toList], granularity := "annual".toList,
    years_min := 1900, years_max := 2100 }

/-- Witness for C1 at a concrete provider/query pair. -/
theorem score_provider_region_gate_witness :
    (qC1.regions ≠ [] ∧
      (∀ qr ∈ qC1.regions, ∀ pr ∈ pC1.regions, semantic_match qr pr = 0)) ∧
    score_provider pC1 qC1 = (0, none) :=
  ⟨⟨by decide, by decide⟩,
    score_provider_region_gate pC1 qC1 (by decide) (by decide)⟩

/-!  Claim C2: the variable-score denominator. -/

/-- Provider used against claim C2: it carries the single variable "gdp". -/
def pC2 : Provider :=
  { «variables» := ["gdp".toList], scenarios := [], regions := [],
    granularity := [], years_min := 0, years_max := 0 }

/-- Query used against claim C2: two variable tokens, of which only "gdp"
matches. -/
def qC2 : Query := { initQuery with «variables» := ["gdp".toList, "zzz".toList] }

/-- When the region gate does not fire, the score component of
`score_provider` is the sum of the four block contributions. -/
theorem score_provider_fst (p : Provider) (q : Query)
    (h : ¬(q.regions ≠ [] ∧ matchedRegions p q = [])) :
    (score_provider p q).1 =
      varContribution p q + scenContribution p q +
      granContribution p q + availContribution p q := by
  unfold score_provider
  rw [if_neg h]

/-- C2 counterexample: with query variables `["gdp", "zzz"]` against a
provider holding only "gdp", the per-token maxima are 1 and 0; averaging
across ALL query tokens would give a contribution of `0.40 * (1 + 0) / 2 =
1/5`, but `score_provider` yields `2/5` — the code divides by the number of
tokens with positive maximum, not by the number of query tokens. -/
theorem score_provider_var_avg_counterexample :
    (score_provider pC2 qC2).1 = 2/5 ∧
    W_VAR * ((qC2.variables.map (bestVarSim pC2)).sum /
      (qC2.variables.length : ℚ)) = 1/5 ∧
    (2/5 : ℚ) ≠ 1/5 := by
  have hg : bestVarSim pC2 ['g', 'd', 'p'] = 1 := by decide
  have hz : bestVarSim pC2 ['z', 'z', 'z'] = 0 := by decide
  refine ⟨?_, ?_, by norm_num⟩
  · have hns : ¬(qC2.regions ≠ [] ∧ matchedRegions pC2 qC2 = []) := by
      simp [qC2, initQuery]
    have hv : varScores pC2 qC2.variables = [1] := by
      simp [qC2, initQuery, varScores, hg, hz]
    have hvar : varContribution pC2 qC2 = 2/5 := by
      unfold varContribution
      rw [hv, if_neg (by decide)]
      norm_num [W_VAR]
    have hscen : scenContribution pC2 qC2 = 0 := by
      simp [scenContribution, scenScores, qC2, initQuery]
    have hgran : granContribution pC2 qC2 = 0 := by
      simp [granContribution, qC2, initQuery]
    have havail : availContribution pC2 qC2 = 0 := by
      simp [availContribution, qC2, initQuery]
    rw [score_provider_fst pC2 qC2 hns, hvar, hscen, hgran, havail]
    norm_num
  · have hlist : qC2.variables = [['g', 'd', 'p'], ['z', 'z', 'z']] := by
      simp [qC2, initQuery]
    rw [hlist]
    simp only [List.map_cons, List.map_nil, hg, hz, List.sum_cons,
      List.sum_nil, List.length_cons, List.length_nil]
    norm_num [W_VAR]

/-- C2 amended: the variable contribution of `score_provider` is 0.40 times
the average of the per-token maxima of `var_match`, averaged across only the
query-variable tokens whose maximum is positive (and 0 when no token
matches); tokens with zero maximum are excluded from the denominator. -/
theorem varContribution_eq_positive_avg (p : Provider) (q : Query) :
    varContribution p q =
      (if (q.variables.map (bestVarSim p)).filter (fun x => decide (0 < x)) = []
       then 0
       else W_VAR *
        (((q.variables.map (bestVarSim p)).filter (fun x => decide (0 < x))).sum /
         ((q.variables.map (bestVarSim p)).filter (fun x => decide (0 < x))).length)) := by
  have h : ∀ l : List Str,
      varScores p l = (l.map (bestVarSim p)).filter (fun x => decide (0 < x)) := by
    intro l
    induction l with
    | nil => rfl
    | cons a t ih =>
      simp only [varScores, List.map_cons, List.filter_cons, ih]
      by_cases hb : 0 < bestVarSim p a
      · simp [hb]
      · simp [hb]
  unfold varContribution
  rw [h]
  by_cases hc :
      (q.variables.map (bestVarSim p)).filter (fun x => decide (0 < x)) = []
  · simp [hc]
  · simp only [hc, if_false]
    ring

/-!  Claim C9: the scenario contribution is unbounded. -/

/-- Provider used for C9: five scenarios all overlapping the single query
scenario "ssp2". -/
def pC9 : Provider :=
  { «variables» := [], scenarios := ["ssp2".toList, "ssp20".toList,
      "ssp21".toList, "ssp22".toList, "ssp23".toList],
    regions := [], granularity := [], years_min := 0, years_max := 0 }

/-- Query used for C9: the single scenario "ssp2". -/
def qC9 : Query := { initQuery with scenarios := ["ssp2".toList] }

/-- C9: the scenario block of `score_provider` sums every (query scenario,
provider scenario) pair with positive similarity and divides only by the
number of query scenarios, so its contribution exceeds the 0.25 weight and
the total score exceeds 1.0: one query scenario matching five provider
scenarios yields `0.25 * (1 + 4 * 0.8) = 1.05`. -/
theorem score_provider_total_exceeds_one :
    W_SCEN < scenContribution pC9 qC9 ∧ 1 < (score_provider pC9 qC9).1 := by
  have h1 : semantic_match ['s', 's', 'p', '2'] ['s', 's', 'p', '2'] = 1 := by
    decide
  have h2 : semantic_match ['s', 's', 'p', '2'] ['s', 's', 'p', '2', '0'] = 0.8 := by
    simp +decide [semantic_match]
  have h3 : semantic_match ['s', 's', 'p', '2'] ['s', 's', 'p', '2', '1'] = 0.8 := by
    simp +decide [semantic_match]
  have h4 : semantic_match ['s', 's', 'p', '2'] ['s', 's', 'p', '2', '2'] = 0.8 := by
    simp +decide [semantic_match]
  have h5 : semantic_match ['s', 's', 'p', '2'] ['s', 's', 'p', '2', '3'] = 0.8 := by
    simp +decide [semantic_match]
  have hs : scenScores pC9 qC9.scenarios = [1, 0.8, 0.8, 0.8, 0.8] := by
    norm_num [qC9, pC9, initQuery, scenScores, List.filterMap_cons,
      List.filterMap_nil, h1, h2, h3, h4, h5]
  have hlen : qC9.scenarios.length = 1 := by simp [qC9, initQuery]
  have hscen : scenContribution pC9 qC9 = 21/20 := by
    unfold scenContribution
    rw [hs, hlen, if_neg (by decide)]
    norm_num [W_SCEN, List.sum_cons, List.sum_nil]
  constructor
  · rw [hscen]; norm_num [W_SCEN]
  · have hns : ¬(qC9.regions ≠ [] ∧ matchedRegions pC9 qC9 = []) := by
      simp [qC9, initQuery]
    have hvar : varContribution pC9 qC9 = 0 := by
      simp [varContribution, varScores, qC9, initQuery]
    have hgran : granContribution pC9 qC9 = 0 := by
      simp [granContribution, qC9, initQuery]
    have havail : availContribution pC9 qC9 = 0 := by
      simp [availContribution, qC9, initQuery]
    rw [score_provider_fst pC9 qC9 hns, hvar, hscen, hgran, havail]
    norm_num

/-!  Claim C3: the parser CAN raise. -/

/-- C3: the claim "parse_query never raises" fails on the code.  The year
rule uses `year_re.match`, which accepts any token beginning with four
digits, and then calls `int(t)` on the WHOLE token; on a token such as
"2020-2050" the `int` call raises `ValueError`, so `parse_query` propagates
an exception instead of returning a Query. -/
theorem parse_query_raises_on_year_prefix_token :
    parse_query "2020-2050".toList = .error () := by decide

/-!  Claim C7: later year tokens overwrite `end_year`. -/

/-- C7 counterexample: on "2000 2010 2020" the code leaves `end_year =
2020` — the third year token OVERWRITES the value set by the second (the
year branch has no `end_year`-unset guard), while the claim says year
tokens after the second are ignored and `end_year` stays 2010. -/
theorem parse_query_third_year_counterexample :
    parse_query "2000 2010 2020".toList =
      .ok { initQuery with
              start_year := some 2000
              end_year := some 2020 } ∧
    some (2020 : Int) ≠ some 2010 := ⟨by decide, by decide⟩

/-- A token that reaches the year branch of the classification chain and
converts cleanly to a non-zero integer (non-zero keeps Python's `not
start_year` test unambiguous). -/
def isPlainYearToken (t : Str) (y : Int) : Prop :=
  isSspToken t = false ∧ hasPipe t = false ∧ knownRegions.contains t = false ∧
  granKeywords.contains t = false ∧ isYearPrefix t = true ∧
  pyInt t = .ok y ∧ y ≠ 0

instance (t : Str) (y : Int) : Decidable (isPlainYearToken t y) := by
  unfold isPlainYearToken
  infer_instance

/-- On a year-classified token the step either fills `start_year` (when it
is falsy) or overwrites `end_year`. -/
theorem stepToken_year (st : Query) (t : Str) (y : Int)
    (h : isPlainYearToken t y) :
    stepToken st t =
      .ok (if yearFalsy st.start_year then { st with start_year := some y }
           else { st with end_year := some y }) := by
  obtain ⟨h1, h2, h3, h4, h5, h6, -⟩ := h
  have h3m : t ∉ knownRegions := by simpa using h3
  have h4m : t ∉ granKeywords := by simpa using h4
  unfold stepToken
  simp [h1, h2, h3m, h4m, h5, h6]

/-- Running the token loop from a state whose `start_year` is already set
(and truthy) over year tokens only: every token overwrites `end_year`, so
the last one wins. -/
theorem parseTokens_years_tail (ts : List Str) (ys : List Int)
    (t : Str) (y : Int) (st : Query)
    (hst : yearFalsy st.start_year = false)
    (hh : isPlainYearToken t y)
    (h : List.Forall₂ isPlainYearToken ts ys) :
    (t :: ts).foldlM stepToken st =
      .ok { st with end_year := some (ys.getLast?.getD y) } := by

  induction h generalizing st t y with
  | nil =>
    simp [List.foldlM, stepToken_year st t y hh, hst]
  | cons hh' h' ih =>
    rename_i t' y' ts' ys'
    rw [List.foldlM_cons, stepToken_year st t y hh]
    rw [if_neg (by simp [hst])]
    rw [exceptOkBind]
    have hst' : yearFalsy ({ st with end_year := some y } : Query).start_year = false := hst
    rw [ih t' y' _ hst' hh']
    cases ys' with
    | nil => rfl
    | cons b l =>
      cases hgl : (b :: l).getLast? with
      | none => exact absurd (List.getLast?_eq_none_iff.mp hgl) (by simp)
      | some z => simp [List.getLast?_cons_cons, hgl]

/-- C7 amended: the first year-classified token sets `start_year`, and every
subsequent year token sets `end_year`, so after parsing `end_year` holds the
LAST year token's value (for exactly two year tokens this is the second, but
later year tokens are not ignored — they keep overwriting it). -/
theorem parse_years_last_wins (t0 : Str) (y0 : Int) (t1 : Str) (y1 : Int)
    (ts : List Str) (ys : List Int)
    (h0 : isPlainYearToken t0 y0) (h1 : isPlainYearToken t1 y1)
    (h : List.Forall₂ isPlainYearToken ts ys) :
    parseTokens (t0 :: t1 :: ts) =
      .ok { initQuery with
              start_year := some y0
              end_year := some (ys.getLast?.getD y1) } := by
  unfold parseTokens
  rw [List.foldlM_cons, stepToken_year initQuery t0 y0 h0]
  rw [if_pos (by simp [initQuery, yearFalsy])]
  rw [exceptOkBind]
  have hst : yearFalsy ({ initQuery with start_year := some y0 } : Query).start_year
      = false := by
    simp [yearFalsy]
    exact h0.2.2.2.2.2.2
  exact parseTokens_years_tail ts ys t1 y1 _ hst h1 h

/-- Witness for the amended C7 at the token list ["2000", "2010", "2020"]:
`end_year` ends up 2020. -/
theorem parse_years_last_wins_witness :
    (isPlainYearToken "2000".toList 2000 ∧ isPlainYearToken "2010".toList 2010 ∧
      List.Forall₂ isPlainYearToken ["2020".toList] [(2020 : Int)]) ∧
    parseTokens ["2000".toList, "2010".toList, "2020".toList] =
      .ok { initQuery with
              start_year := some 2000
              end_year := some (([(2020 : Int)].getLast?).getD 2010) } :=
  ⟨⟨by decide, by decide, List.Forall₂.cons (by decide) List.Forall₂.nil⟩,
    parse_years_last_wins "2000".toList 2000 "2010".toList 2010
      ["2020".toList] [(2020 : Int)] (by decide) (by decide)
      (List.Forall₂.cons (by decide) List.Forall₂.nil)⟩

/-!  Claim C4: database failure handling in `compute_coverage_metrics`. -/

/-- C4 counterexample: the claim says a connection or aggregation failure
propagates as an error and is never returned as an empty list
indistinguishable from "no matches"; but the code catches both failures
(printing them) and returns `[]` — exactly the value a successful query
with zero matching rows produces. -/
theorem compute_coverage_metrics_failure_counterexample :
    compute_coverage_metrics none = [] ∧
    compute_coverage_metrics (some (.error ())) = [] ∧
    compute_coverage_metrics (some (.ok [])) = [] :=
  ⟨rfl, rfl, rfl⟩

/-- C4 amended: a failed connection (`get_db_connection` returning `None`)
or a raised aggregation query both make `compute_coverage_metrics` return
the empty list — the same value as a successful query with no rows; no
error propagates to the caller. -/
theorem compute_coverage_metrics_swallows_failures :
    compute_coverage_metrics none = [] ∧
    (∀ e : Unit, compute_coverage_metrics (some (.error e)) = []) ∧
    (∀ rows : List Row,
      compute_coverage_metrics (some (.ok rows)) = rows.map rowToMetric) :=
  ⟨rfl, fun _ => rfl, fun _ => rfl⟩

/-!  Claim C5: `score_candidates` mutates its input metrics. -/

/-- The six coverage fields of a metric (the dict keys present before
`score_candidates` runs). -/
def coreFields (m : Metric) : Str × Str × Nat × Nat × Int × Int :=
  (m.provider, m.model, m.variable_coverage_count, m.region_coverage_count,
   m.min_year, m.max_year)

/-- A concrete coverage metric fresh from `compute_coverage_metrics`
(`score`/`details` keys absent). -/
def mC5 : Metric :=
  { provider := "iea".toList, model := "wem".toList,
    variable_coverage_count := 2, region_coverage_count := 3,
    min_year := 2000, max_year := 2050 }

/-- C5 counterexample: `score_candidates` writes `m['score']` and
`m['details']` into the very dicts of its input list, so after the call the
input metric is observably changed — the function is not pure in its
argument. -/
theorem score_candidates_mutates_counterexample :
    score_candidates_input_after [mC5] ≠ [mC5] := by decide

/-- C5 amended: the only mutation `score_candidates` applies to its input
metrics is adding the `score` and `details` keys; the six coverage fields
and the input list order are left unchanged. -/
theorem score_candidates_mutation_preserves_core (ms : List Metric) :
    (score_candidates_input_after ms).map coreFields = ms.map coreFields := by
  unfold score_candidates_input_after scoredList
  rw [List.map_map]
  apply List.map_congr_left
  intro m _
  rfl

/-!  Claim C8: `var_score` under identical coverage counts. -/

/-- Greatest-element bound for `listMax`. -/
theorem foldl_max_le (l : List Nat) (i c : Nat) (hi : i ≤ c)
    (h : ∀ x ∈ l, x ≤ c) : l.foldl max i ≤ c := by
  induction l generalizing i with
  | nil => exact hi
  | cons a t ih =>
    exact ih (max i a) (max_le hi (h a (by simp))) (fun x hx => h x (by simp [hx]))

/-- Members bound `listMax` from below. -/
theorem le_foldl_max (l : List Nat) (i a : Nat) (h : a ∈ l) :
    a ≤ l.foldl max i := by
  induction l generalizing i with
  | nil => cases h
  | cons b t ih =>
    rcases List.mem_cons.mp h with rfl | hmem
    · calc a ≤ max i a := le_max_right i a
        _ ≤ t.foldl max (max i a) := by
          clear ih h
          induction t generalizing i a with
          | nil => exact le_refl _
          | cons x xs ih2 => exact le_trans (le_max_left _ x) (ih2 _ _)
    · exact ih (max i b) hmem

/-- `listMax` of a list of members all below `c` is below `c`. -/
theorem listMax_le (l : List Nat) (c : Nat) (h : ∀ x ∈ l, x ≤ c) :
    listMax l ≤ c :=
  foldl_max_le l 0 c (Nat.zero_le c) h

/-- Any member is at most `listMax`. -/
theorem le_listMax (l : List Nat) (a : Nat) (h : a ∈ l) : a ≤ listMax l :=
  le_foldl_max l 0 a h

/-- On a non-empty list `isEmpty` is `false`. -/
theorem isEmpty_eq_false_of_ne_nil {ms : List Metric} (h : ms ≠ []) :
    ms.isEmpty = false := by
  cases ms with
  | nil => exact absurd rfl h
  | cons a t => rfl

/-- A single all-zero metric list: all candidates share
`variable_coverage_count = 0`. -/
def mC8 : Metric :=
  { provider := "p".toList, model := "m".toList,
    variable_coverage_count := 0, region_coverage_count := 0,
    min_year := 2000, max_year := 2010 }

/-- C8 counterexample: in the list `[mC8]` every candidate has the same
`variable_coverage_count` (namely 0), yet `var_score` is 0, not 1.0: the
`max_vars > 0` guard returns 0 when the shared count is 0. -/
theorem var_score_identical_counts_counterexample :
    (∀ m ∈ [mC8], m.variable_coverage_count = 0) ∧
    varScoreC (maxVars [mC8]) mC8 = 0 ∧ (0 : ℚ) ≠ 1 := by
  refine ⟨by decide, ?_, by norm_num⟩
  have : maxVars [mC8] = 0 := by decide
  rw [this]
  rfl

/-- C8 amended: when every candidate of a non-empty metrics list has the
same POSITIVE `variable_coverage_count`, every candidate's `var_score` in
`score_candidates` equals 1.0 (for a shared count of 0 the division guard
yields 0 instead). -/
theorem var_score_identical_positive_counts (ms : List Metric) (c : Nat)
    (hne : ms ≠ []) (hc : 0 < c)
    (hall : ∀ m ∈ ms, m.variable_coverage_count = c) :
    ∀ m ∈ ms, varScoreC (maxVars ms) m = 1 := by
  have hmax : maxVars ms = c := by
    unfold maxVars
    rw [if_neg (by simp [isEmpty_eq_false_of_ne_nil hne])]
    apply le_antisymm
    · apply listMax_le
      intro x hx
      obtain ⟨m, hm, rfl⟩ := List.mem_map.mp hx
      exact le_of_eq (hall m hm)
    · obtain ⟨m, hm⟩ := List.exists_mem_of_ne_nil ms hne
      have : c ∈ ms.map (fun m => m.variable_coverage_count) := by
        exact List.mem_map.mpr ⟨m, hm, hall m hm⟩
      exact le_listMax _ c this
  intro m hm
  unfold varScoreC
  rw [hmax, hall m hm, if_pos hc]
  exact div_self (show (c : ℚ) ≠ 0 by exact_mod_cast hc.ne')

/-- Witness for the amended C8 at the singleton list `[mC5]` (shared count
2). -/
theorem var_score_identical_positive_counts_witness :
    ([mC5] ≠ [] ∧ 0 < 2 ∧ (∀ m ∈ [mC5], m.variable_coverage_count = 2)) ∧
    (∀ m ∈ [mC5], varScoreC (maxVars [mC5]) m = 1) :=
  ⟨⟨by decide, by decide, by decide⟩,
    var_score_identical_positive_counts [mC5] 2 (by decide) (by decide)
      (by decide)⟩

/-!  Claims C6 and C10: the ranking postcondition and the score range. -/

/-- The sort comparison is transitive. -/
theorem scoreLE_trans : ∀ (a b c : Metric), scoreLE a b → scoreLE b c → scoreLE a c := by
  intro a b c
  simp only [scoreLE, decide_eq_true_eq]
  omega

/-- The sort comparison is total. -/
theorem scoreLE_total : ∀ (a b : Metric), scoreLE a b || scoreLE b a := by
  intro a b
  simp only [scoreLE, Bool.or_eq_true, decide_eq_true_eq]
  omega

/-- Membership in the ranked output is membership of an updated input
metric. -/
theorem mem_score_candidates (ms : List Metric) (hne : ms ≠ []) (c : Metric) :
    c ∈ score_candidates ms ↔
      ∃ m ∈ ms, c = updateMetric (maxVars ms) (maxRegions ms) m := by
  unfold score_candidates
  rw [if_neg (by simp [isEmpty_eq_false_of_ne_nil hne])]
  rw [List.mem_mergeSort]
  unfold scoredList
  rw [List.mem_map]
  exact exists_congr fun m => and_congr_right fun _ => eq_comm

/-- Stability of the sort: the sublist of any fixed score value is
unchanged by `mergeSort` under `scoreLE`. -/
theorem filter_mergeSort_score (l : List Metric) (k : Int) :
    (l.mergeSort scoreLE).filter (fun c => decide (getScore c = k)) =
    l.filter (fun c => decide (getScore c = k)) := by
  have hpair : (l.filter (fun c => decide (getScore c = k))).Pairwise
      (fun a b => scoreLE a b) := by
    apply List.pairwise_of_forall_mem_list
    intro a ha b hb
    have ha' := (List.mem_filter.mp ha).2
    have hb' := (List.mem_filter.mp hb).2
    simp only [decide_eq_true_eq] at ha' hb'
    simp [scoreLE, ha', hb']
  have hsub : List.Sublist (l.filter (fun c => decide (getScore c = k)))
      (l.mergeSort scoreLE) :=
    List.sublist_mergeSort scoreLE_trans scoreLE_total hpair (List.filter_sublist l)
  have hff : (l.filter (fun c => decide (getScore c = k))).filter
      (fun c => decide (getScore c = k)) =
      l.filter (fun c => decide (getScore c = k)) :=
    List.filter_eq_self.mpr (fun a ha => (List.mem_filter.mp ha).2)
  have hsub2 : List.Sublist (l.filter (fun c => decide (getScore c = k)))
      ((l.mergeSort scoreLE).filter (fun c => decide (getScore c = k))) := by
    have h2 := List.Sublist.filter (fun c => decide (getScore c = k)) hsub
    rwa [hff] at h2
  have hlen : ((l.mergeSort scoreLE).filter (fun c => decide (getScore c = k))).length =
      (l.filter (fun c => decide (getScore c = k))).length :=
    ((List.mergeSort_perm l scoreLE).filter _).length_eq
  exact (hsub2.eq_of_length hlen.symm).symm

/-- C6: for a non-empty metrics list, every ranked candidate's `score` is
`round(100 * (0.4*var_score + 0.3*reg_score + 0.2*time_score + 0.1*0.5))`
(with the division-by-zero-guarded normalized scores and CPython's
half-to-even `round`), the output is sorted non-increasing by score, and
candidates of any fixed score keep their input order (`scoredList` is the
input list, mutated, in input order). -/
theorem score_candidates_formula_sorted_stable (ms : List Metric) (hne : ms ≠ []) :
    (∀ c ∈ score_candidates ms,
      c.score = some (pyRound (100 *
        (0.4 * varScoreC (maxVars ms) c + 0.3 * regScoreC (maxRegions ms) c +
         0.2 * timeScoreC c + 0.1 * 0.5)))) ∧
    (score_candidates ms).Pairwise (fun a b => getScore b ≤ getScore a) ∧
    (∀ k : Int,
      (score_candidates ms).filter (fun c => decide (getScore c = k)) =
        (scoredList ms).filter (fun c => decide (getScore c = k))) := by
  refine ⟨?_, ?_, ?_⟩
  · intro c hc
    obtain ⟨m, hm, rfl⟩ := (mem_score_candidates ms hne c).mp hc
    have hv : varScoreC (maxVars ms) (updateMetric (maxVars ms) (maxRegions ms) m) =
        varScoreC (maxVars ms) m := rfl
    have hr : regScoreC (maxRegions ms) (updateMetric (maxVars ms) (maxRegions ms) m) =
        regScoreC (maxRegions ms) m := rfl
    have ht : timeScoreC (updateMetric (maxVars ms) (maxRegions ms) m) =
        timeScoreC m := rfl
    rw [hv, hr, ht]
    show some (pyRound ((0.4 * varScoreC (maxVars ms) m +
        0.3 * regScoreC (maxRegions ms) m + 0.2 * timeScoreC m + 0.1 * 0.5) * 100)) = _
    congr 2
    ring
  · unfold score_candidates
    rw [if_neg (by simp [isEmpty_eq_false_of_ne_nil hne])]
    exact (List.sorted_mergeSort scoreLE_trans scoreLE_total (scoredList ms)).imp
      (fun hab => by simpa [scoreLE] using hab)
  · intro k
    unfold score_candidates
    rw [if_neg (by simp [isEmpty_eq_false_of_ne_nil hne])]
    exact filter_mergeSort_score (scoredList ms) k

/-- Witness for C6 at the singleton list `[mC5]`. -/
theorem score_candidates_formula_sorted_stable_witness :
    ([mC5] ≠ []) ∧
    ((∀ c ∈ score_candidates [mC5],
      c.score = some (pyRound (100 *
        (0.4 * varScoreC (maxVars [mC5]) c + 0.3 * regScoreC (maxRegions [mC5]) c +
         0.2 * timeScoreC c + 0.1 * 0.5)))) ∧
     (score_candidates [mC5]).Pairwise (fun a b => getScore b ≤ getScore a) ∧
     (∀ k : Int,
       (score_candidates [mC5]).filter (fun c => decide (getScore c = k)) =
         (scoredList [mC5]).filter (fun c => decide (getScore c = k)))) :=
  ⟨by decide, score_candidates_formula_sorted_stable [mC5] (by decide)⟩

/-- The guarded `var_score` lies in `[0, 1]` for members of the list. -/
theorem varScoreC_bounds (ms : List Metric) (m : Metric) (hm : m ∈ ms) :
    0 ≤ varScoreC (maxVars ms) m ∧ varScoreC (maxVars ms) m ≤ 1 := by
  unfold varScoreC
  by_cases h : 0 < maxVars ms
  · rw [if_pos h]
    have hle : m.variable_coverage_count ≤ maxVars ms := by
      unfold maxVars
      rw [if_neg (by simp [isEmpty_eq_false_of_ne_nil (List.ne_nil_of_mem hm)])]
      exact le_listMax _ _ (List.mem_map_of_mem _ hm)
    constructor
    · positivity
    · rw [div_le_one (by exact_mod_cast h)]
      exact_mod_cast hle
  · rw [if_neg h]
    norm_num

/-- The guarded `reg_score` lies in `[0, 1]` for members of the list. -/
theorem regScoreC_bounds (ms : List Metric) (m : Metric) (hm : m ∈ ms) :
    0 ≤ regScoreC (maxRegions ms) m ∧ regScoreC (maxRegions ms) m ≤ 1 := by
  unfold regScoreC
  by_cases h : 0 < maxRegions ms
  · rw [if_pos h]
    have hle : m.region_coverage_count ≤ maxRegions ms := by
      unfold maxRegions
      rw [if_neg (by simp [isEmpty_eq_false_of_ne_nil (List.ne_nil_of_mem hm)])]
      exact le_listMax _ _ (List.mem_map_of_mem _ hm)
    constructor
    · positivity
    · rw [div_le_one (by exact_mod_cast h)]
      exact_mod_cast hle
  · rw [if_neg h]
    norm_num

/-- With an ordered year span, `time_score` lies in `[0, 1]`. -/
theorem timeScoreC_bounds (m : Metric) (h : m.min_year ≤ m.max_year) :
    0 ≤ timeScoreC m ∧ timeScoreC m ≤ 1 := by
  unfold timeScoreC
  constructor
  · apply le_min
    · apply div_nonneg
      · have h0 : (0 : Int) ≤ m.max_year - m.min_year := by omega
        exact_mod_cast h0
      · norm_num
    · norm_num
  · exact min_le_right _ _

/-- Half-to-even rounding never drops below an integer lower bound. -/
theorem le_pyRound (a : Int) (x : ℚ) (h : (a : ℚ) ≤ x) : a ≤ pyRound x := by
  have hf : a ≤ ⌊x⌋ := Int.le_floor.mpr h
  unfold pyRound
  split_ifs <;> omega

/-- Half-to-even rounding never exceeds an integer upper bound. -/
theorem pyRound_le (b : Int) (x : ℚ) (h : x ≤ (b : ℚ)) : pyRound x ≤ b := by
  have hfb : ⌊x⌋ ≤ b := by
    have h2 := Int.floor_le_floor h
    rwa [Int.floor_intCast] at h2
  have key : ¬(x - ⌊x⌋ < 1/2) → ⌊x⌋ + 1 ≤ b := by
    intro hA
    have h1 : (⌊x⌋ : ℚ) + 1/2 ≤ x := by
      have h0 := not_lt.mp hA
      linarith
    have h2 : (⌊x⌋ : ℚ) < (b : ℚ) := by linarith
    have h3 : ⌊x⌋ < b := by exact_mod_cast h2
    omega
  unfold pyRound
  split_ifs with h1 h2 h3
  · exact hfb
  · exact key h1
  · exact hfb
  · exact key h1

/-- C10: for every non-empty metrics list whose year spans are ordered
(`min_year ≤ max_year`), every ranked score lies between 5 and 95
inclusive: the constant bonus `0.1 * 0.5` forces at least `round(5)`, and
the weights cap the raw score at 0.95, so the advertised 0..100 scale is
never fully used. -/
theorem score_candidates_scores_in_5_95 (ms : List Metric) (hne : ms ≠ [])
    (hyears : ∀ m ∈ ms, m.min_year ≤ m.max_year) :
    ∀ c ∈ score_candidates ms, 5 ≤ getScore c ∧ getScore c ≤ 95 := by
  intro c hc
  obtain ⟨m, hm, rfl⟩ := (mem_score_candidates ms hne c).mp hc
  have hv := varScoreC_bounds ms m hm
  have hr := regScoreC_bounds ms m hm
  have ht := timeScoreC_bounds m (hyears m hm)
  have hg : getScore (updateMetric (maxVars ms) (maxRegions ms) m) =
      pyRound ((0.4 * varScoreC (maxVars ms) m + 0.3 * regScoreC (maxRegions ms) m +
        0.2 * timeScoreC m + 0.1 * 0.5) * 100) := rfl
  rw [hg]
  constructor
  · apply le_pyRound
    push_cast
    nlinarith [hv.1, hv.2, hr.1, hr.2, ht.1, ht.2]
  · apply pyRound_le
    push_cast
    nlinarith [hv.1, hv.2, hr.1, hr.2, ht.1, ht.2]

/-- Witness for C10 at the singleton list `[mC5]`. -/
theorem score_candidates_scores_in_5_95_witness :
    ([mC5] ≠ [] ∧ (∀ m ∈ [mC5], m.min_year ≤ m.max_year)) ∧
    (∀ c ∈ score_candidates [mC5], 5 ≤ getScore c ∧ getScore c ≤ 95) :=
  ⟨⟨by decide, by decide⟩,
    score_candidates_scores_in_5_95 [mC5] (by decide) (by decide)⟩

end ClimateHIS
